import Mathlib

/-!
Verification of the Statistics Computation Engine of proyecto-inf-pyd.

The repository ships the engine as the ms_stats service (built by
src/unnamed/part_000 and src/backend/benchmark/docker-compose.benchmark.yml,
which runs one parallel variant, ms_stats, and one sequential variant,
ms_stats_sec).  The engine source itself is not under src/, so the engine is
modelled from the specification; the frontend (src/frontend/src/App.jsx and
the chart components) is embedded directly from its source.

Numeric values are modelled as rationals; an absent or NaN numeric field is
modelled as Option.none.
-/

namespace ProyectoStats

/-- The numeric fields of an Observation: open, close, high, low,
adjusted close ("adj close") and volume. -/
inductive Field where
  | fOpen
  | fClose
  | fHigh
  | fLow
  | fAdjClose
  | fVolume
deriving DecidableEq, Repr

/-- Modelled from the spec: one row of the time series of a ticker (§3).  Each
numeric field may be absent/NaN, modelled by Option.none.  The date is kept
as a plain string; it plays no role in aggregate computation. -/
structure Observation where
  date : String
  vOpen : Option ℚ
  vClose : Option ℚ
  vHigh : Option ℚ
  vLow : Option ℚ
  vAdjClose : Option ℚ
  vVolume : Option ℚ
deriving DecidableEq, Repr

/-- Value of an Observation at a given numeric field. -/
def Observation.fieldVal (o : Observation) : Field → Option ℚ
  | Field.fOpen => o.vOpen
  | Field.fClose => o.vClose
  | Field.fHigh => o.vHigh
  | Field.fLow => o.vLow
  | Field.fAdjClose => o.vAdjClose
  | Field.fVolume => o.vVolume

/-- The chronological sequence of observations of a ticker (§3, TickerSeries). -/
abbrev TickerSeries := List Observation

/-- The raw mapping from ticker symbol to series, in insertion order. -/
abbrev DatasetData := List (String × TickerSeries)

/-- Modelled from the spec: the immutable, versioned snapshot (§3,
TickerDataset).  The loadedAt timestamp is irrelevant to every claim and is
omitted. -/
structure TickerDataset where
  data : DatasetData
  version : Nat
deriving DecidableEq, Repr

/-- Series stored for a ticker, if present. -/
def lookupSeries (d : DatasetData) (t : String) : Option TickerSeries :=
  (d.find? (fun p => p.1 == t)).map Prod.snd

/-- Ticker symbols of a dataset, in insertion order. -/
def allTickers (d : DatasetData) : List String :=
  d.map Prod.fst

/-- Total number of observation records in a dataset. -/
def recordCount (d : DatasetData) : Nat :=
  (d.map (fun p => p.2.length)).sum

/-- All valid (present, non-NaN) values of a field in one series. -/
def seriesFieldValues (s : TickerSeries) (f : Field) : List ℚ :=
  s.filterMap (fun o => o.fieldVal f)

/-- All valid values of a field for one ticker of the dataset. -/
def tickerFieldValues (d : DatasetData) (t : String) (f : Field) : List ℚ :=
  match lookupSeries d t with
  | some s => seriesFieldValues s f
  | none => []

/-- All valid values of a field across a queried list of tickers, in query
order. -/
def queryFieldValues (d : DatasetData) (ts : List String) (f : Field) : List ℚ :=
  (ts.map (fun t => tickerFieldValues d t f)).flatten

/-- Combine two optional minima (identity: none). -/
def optMin : Option ℚ → Option ℚ → Option ℚ
  | none, b => b
  | some a, none => some a
  | some a, some b => some (min a b)

/-- Combine two optional maxima (identity: none). -/
def optMax : Option ℚ → Option ℚ → Option ℚ
  | none, b => b
  | some a, none => some a
  | some a, some b => some (max a b)

/-- Minimum of a value list, none when empty. -/
def listMin (l : List ℚ) : Option ℚ :=
  l.foldr (fun x a => optMin (some x) a) none

/-- Maximum of a value list, none when empty. -/
def listMax (l : List ℚ) : Option ℚ :=
  l.foldr (fun x a => optMax (some x) a) none

/-- Sort a value list ascending (insertion sort; stable, structural). -/
def sortVals (l : List ℚ) : List ℚ :=
  l.insertionSort (fun a b => a ≤ b)

/-- Merge two sorted value lists into one sorted list by ordered insertion
of the first into the second. -/
def mergeSorted (l r : List ℚ) : List ℚ :=
  l.foldr (fun x acc => acc.orderedInsert (fun a b => a ≤ b) x) r

/-- Modelled from the spec: mean = sum/count, undefined (none) when
count = 0 (§4.2). -/
def meanOf (count : Nat) (sum : ℚ) : Option ℚ :=
  if count = 0 then none else some (sum / (count : ℚ))

/-- Modelled from the spec: exact median of an already sorted list; on an
even-length list, the average of the two central values (§4.2). -/
def medianSorted (s : List ℚ) : Option ℚ :=
  if s.length = 0 then none
  else if s.length % 2 = 1 then s[s.length / 2]?
  else
    match s[s.length / 2 - 1]?, s[s.length / 2]? with
    | some a, some b => some ((a + b) / 2)
    | _, _ => none

/-- Per-field output of the engine: the four reducers plus the streamed
count and sum they are derived from. -/
structure FieldStats where
  count : Nat
  sum : ℚ
  minV : Option ℚ
  maxV : Option ℚ
  meanV : Option ℚ
  medianV : Option ℚ
deriving DecidableEq, Repr

/-- Modelled from the spec: the Sequential strategy (§4.2).  Iterates all
matching observations once, accumulating count, sum, min, max and the full
value list, then takes mean = sum/count and the exact median of the sorted
value list. -/
def seqFieldStats (d : DatasetData) (ts : List String) (f : Field) : FieldStats :=
  let vals := queryFieldValues d ts f
  { count := vals.length
    sum := vals.sum
    minV := listMin vals
    maxV := listMax vals
    meanV := meanOf vals.length vals.sum
    medianV := medianSorted (sortVals vals) }

/-- Partial per-chunk aggregate of the Parallel strategy (§4.3): count,
sum, min, max and the sorted value list of the chunk. -/
structure ChunkAgg where
  count : Nat
  sum : ℚ
  minV : Option ℚ
  maxV : Option ℚ
  sorted : List ℚ
deriving DecidableEq, Repr

/-- Aggregate of one worker chunk of tickers. -/
def chunkAggOf (d : DatasetData) (chunk : List String) (f : Field) : ChunkAgg :=
  let vals := queryFieldValues d chunk f
  { count := vals.length
    sum := vals.sum
    minV := listMin vals
    maxV := listMax vals
    sorted := sortVals vals }

/-- Neutral aggregate, the starting point of the reduction. -/
def emptyAgg : ChunkAgg :=
  { count := 0, sum := 0, minV := none, maxV := none, sorted := [] }

/-- Modelled from the spec: reduction of partial results (§4.3) — counts
and sums add, min/max combine pairwise, sorted value lists are merged. -/
def mergeAgg (p q : ChunkAgg) : ChunkAgg :=
  { count := p.count + q.count
    sum := p.sum + q.sum
    minV := optMin p.minV q.minV
    maxV := optMax p.maxV q.maxV
    sorted := mergeSorted p.sorted q.sorted }

/-- Reduce the chunk aggregates right-to-left. -/
def reduceAggs (l : List ChunkAgg) : ChunkAgg :=
  l.foldr mergeAgg emptyAgg

/-- Modelled from the spec: the Parallel strategy (§4.3).  Processes each
chunk of the ticker partition independently, reduces the partial
aggregates, then takes mean and the exact median over the fully merged
ordered sequence. -/
def parFieldStats (d : DatasetData) (chunks : List (List String)) (f : Field) :
    FieldStats :=
  let agg := reduceAggs (chunks.map (fun c => chunkAggOf d c f))
  { count := agg.count
    sum := agg.sum
    minV := agg.minV
    maxV := agg.maxV
    meanV := meanOf agg.count agg.sum
    medianV := medianSorted agg.sorted }

/-- Full Sequential compute over the field list of a query. -/
def seqCompute (d : DatasetData) (ts : List String) (fs : List Field) :
    List (Field × FieldStats) :=
  fs.map (fun f => (f, seqFieldStats d ts f))

/-- Full Parallel compute over the field list of a query. -/
def parCompute (d : DatasetData) (chunks : List (List String)) (fs : List Field) :
    List (Field × FieldStats) :=
  fs.map (fun f => (f, parFieldStats d chunks f))

/-! JSON values, service state and the external interface -/

/-- A JSON value, as produced by the service endpoints. -/
inductive Json where
  | nullJ : Json
  | boolJ : Bool → Json
  | numJ : ℚ → Json
  | strJ : String → Json
  | arrJ : List Json → Json
  | objJ : List (String × Json) → Json

/-- Field lookup in a JSON object; none on any other JSON value. -/
def Json.lookupKey : Json → String → Option Json
  | Json.objJ fs, k => (fs.find? (fun p => decide (p.1 = k))).map Prod.snd
  | _, _ => none

/-- Encode an optional numeric value: a number when defined, null when the
reducer had no valid sample. -/
def encOpt : Option ℚ → Json
  | some q => Json.numJ q
  | none => Json.nullJ

/-- The lower-case metric keys of the external interface (§6) paired with
the fields they denote. -/
def statsFields : List (String × Field) :=
  [("open", Field.fOpen), ("close", Field.fClose), ("high", Field.fHigh),
   ("low", Field.fLow), ("adj close", Field.fAdjClose), ("volume", Field.fVolume)]

/-- The price metrics: open and close only (§3, price result). -/
def priceFields : List (String × Field) :=
  [("open", Field.fOpen), ("close", Field.fClose)]

/-- One reducer object of a statistics response: the chosen reducer of the
engine output, per requested metric key. -/
def reducerObj (d : DatasetData) (ts : List String) (pick : FieldStats → Option ℚ)
    (keys : List (String × Field)) : Json :=
  Json.objJ (keys.map (fun p => (p.1, encOpt (pick (seqFieldStats d ts p.2)))))

/-- Outcome of a LoaderClient bulk snapshot fetch.  A malformed payload is
indistinguishable from a failed fetch for the engine (§4.1), so both are
fetchFail; an empty payload arrives as fetchOk with zero records. -/
inductive FetchOutcome where
  | fetchFail : FetchOutcome
  | fetchOk : DatasetData → FetchOutcome

/-- A query: the requested tickers and numeric fields. -/
abbrev QueryKey := List String × List Field

/-- A computed statistics result, per field. -/
abbrev StatsResult := List (Field × FieldStats)

/-- Modelled from the spec: the orchestration state of StatsService — the
versioned snapshot, the result cache keyed by (version, query), the
load-in-flight flag and the last observed loader connectivity/status
(§2, §3). -/
structure EngineState where
  dataset : TickerDataset
  cache : List ((Nat × QueryKey) × StatsResult)
  loading : Bool
  loaderConn : String
  loaderStatus : List (String × Json)

/-- Cache lookup by (version, query) key. -/
def cacheLookup (c : List ((Nat × QueryKey) × StatsResult)) (k : Nat × QueryKey) :
    Option StatsResult :=
  (c.find? (fun e => decide (e.1 = k))).map Prod.snd

/-- Modelled from the spec: a reload (§4.1).  A failed or malformed fetch,
or an empty payload, retains the existing snapshot unchanged and reports
failure; a successful non-empty fetch installs the new snapshot wholesale,
bumps the version and drops the entire cache.  There is no partial-commit
path. -/
def reloadStep (st : EngineState) (outcome : FetchOutcome) : EngineState × Bool :=
  match outcome with
  | FetchOutcome.fetchFail => (st, false)
  | FetchOutcome.fetchOk payload =>
      if recordCount payload = 0 then (st, false)
      else
        ({ st with
            dataset := { data := payload, version := st.dataset.version + 1 }
            cache := [] }, true)

/-- Modelled from the spec: answering a query (§2 control flow) — check the
cache for the current snapshot version, on miss compute with the bound
strategy against the snapshot. -/
def queryAnswer (st : EngineState) (q : QueryKey) : StatsResult :=
  match cacheLookup st.cache (st.dataset.version, q) with
  | some r => r
  | none => seqCompute st.dataset.data q.1 q.2

/-- Cache consistency: every cached entry at the current version equals
what the engine would compute from the current snapshot (§4.4: the cache is
an optimization only). -/
def cacheConsistent (st : EngineState) : Prop :=
  ∀ q r, cacheLookup st.cache (st.dataset.version, q) = some r →
    r = seqCompute st.dataset.data q.1 q.2

/-- Modelled from the spec: GET /stats/by_ticker (§4.6, §6) —
the four reducers over each numeric field of the one ticker; a not-found
error when the ticker is absent from the dataset. -/
def statsByTicker (d : DatasetData) (t : String) : Except String Json :=
  match lookupSeries d t with
  | none => Except.error ("Ticker " ++ t ++ " not found")
  | some _ =>
      Except.ok (Json.objJ
        [("ticker", Json.strJ t),
         ("statistics", Json.objJ
           [("mean", reducerObj d [t] (fun s => s.meanV) statsFields),
            ("min", reducerObj d [t] (fun s => s.minV) statsFields),
            ("median", reducerObj d [t] (fun s => s.medianV) statsFields),
            ("max", reducerObj d [t] (fun s => s.maxV) statsFields)])])

/-- Modelled from the spec: GET /stats/prices (§6) — the four reducers
computed across all tickers over the open and close fields only, wrapped in
the price_statistics object. -/
def pricesResponse (d : DatasetData) : Json :=
  Json.objJ
    [("price_statistics", Json.objJ
      [("min", reducerObj d (allTickers d) (fun s => s.minV) priceFields),
       ("median", reducerObj d (allTickers d) (fun s => s.medianV) priceFields),
       ("mean", reducerObj d (allTickers d) (fun s => s.meanV) priceFields),
       ("max", reducerObj d (allTickers d) (fun s => s.maxV) priceFields)])]

/-- Modelled from the spec: the bound on the ticker sample of the summary
(§4.6, "a bounded sample of ticker symbols"); the spec leaves N open, the
model fixes it at 10. -/
def sampleBound : Nat := 10

/-- Modelled from the spec: deterministic sample selection — the first
sampleBound ticker symbols in insertion order (§4.6). -/
def sampleTickers (d : DatasetData) : List String :=
  (allTickers d).take sampleBound

/-- Modelled from the spec: GET /stats/summary (§4.6, §6) — record count,
distinct ticker count and the deterministic ticker sample. -/
def summaryResponse (d : DatasetData) : Json :=
  Json.objJ
    [("total_records", Json.numJ (recordCount d)),
     ("total_tickers", Json.numJ ((allTickers d).length)),
     ("sample_tickers", Json.arrJ ((sampleTickers d).map Json.strJ))]

/-- Summary as served from the full service state: computed from the
current snapshot only. -/
def summaryOf (st : EngineState) : Json :=
  summaryResponse st.dataset.data

/-- Ticker sample as served from the full service state. -/
def sampleOf (st : EngineState) : List String :=
  sampleTickers st.dataset.data

/-- Modelled from the spec: GET /health (§6) — data_loaded, loading,
records, message, the loader connectivity tag and the loader status
object. -/
def healthResponse (st : EngineState) : Json :=
  Json.objJ
    [("data_loaded", Json.boolJ (decide (recordCount st.dataset.data ≠ 0))),
     ("loading", Json.boolJ st.loading),
     ("records", Json.numJ (recordCount st.dataset.data)),
     ("message", Json.strJ
       (if recordCount st.dataset.data ≠ 0 then "Data loaded" else "No data loaded")),
     ("ms_loader_connection", Json.strJ st.loaderConn),
     ("ms_loader_status", Json.objJ st.loaderStatus)]

/-- Projection of a dataset to its per-observation (open, close) pairs,
keeping ticker symbols and series shape. -/
def ocPair (o : Observation) : Option ℚ × Option ℚ :=
  (o.vOpen, o.vClose)

/-- Open/close projection of a whole dataset. -/
def ocProjection (d : DatasetData) : List (String × List (Option ℚ × Option ℚ)) :=
  d.map (fun p => (p.1, p.2.map ocPair))

/-! Frontend model (src/frontend/src/App.jsx) -/

/-- Character-wise lower-casing, modelling the JavaScript
String.prototype.toLowerCase() applied to connectivity tags. -/
def strToLower (s : String) : String :=
  String.mk (s.data.map Char.toLower)

/-- The part of a /health response body read by the frontend auto-reload
effect: data_loaded and the optional ms_loader_connection string
(App.jsx, lines 205-207). -/
structure HealthData where
  data_loaded : Bool
  ms_loader_connection : Option String

/-- Frontend state relevant to the automatic reload effect: the
autoReloadTriggered flag and the number of GET /stats/reload requests the
effect has issued (App.jsx, lines 202, 211-212). -/
structure AutoReloadState where
  autoReloadTriggered : Bool
  reloadRequests : Nat
deriving DecidableEq, Repr

/-- Mount-time state: flag down, no request issued (App.jsx, line 202). -/
def initialAutoReloadState : AutoReloadState :=
  { autoReloadTriggered := false, reloadRequests := 0 }

/-- One run of the auto-reload effect (App.jsx, lines 204-215) on the
current healthData value (none models the initial null state).  The effect
body runs only when the flag is down and healthData is truthy; it fires a
reload and raises the flag exactly when ms_loader_connection lower-cases to
"ok" and data_loaded is not true. -/
def autoReloadEffect (st : AutoReloadState) (healthData : Option HealthData) :
    AutoReloadState :=
  match healthData with
  | none => st
  | some h =>
      if st.autoReloadTriggered then st
      else
        let isLoaderOk : Bool :=
          match h.ms_loader_connection with
          | some s => decide (strToLower s = "ok")
          | none => false
        let isStatsNotReady : Bool := !h.data_loaded
        if isLoaderOk && isStatsNotReady then
          { autoReloadTriggered := true, reloadRequests := st.reloadRequests + 1 }
        else st

/-- The effect over a whole mounted session: a fold over the sequence of
healthData values observed by the health polls. -/
def runAutoReload (events : List (Option HealthData)) : AutoReloadState :=
  events.foldl autoReloadEffect initialAutoReloadState

/-! Concrete inputs used by the examples and witnesses -/

/-- The missing-field example dataset of the spec:
AAA with observations (open 10, close NaN) and (open 12, close 8). -/
def exampleC3 : DatasetData :=
  [("AAA",
    [{ date := "2024-01-01", vOpen := some 10, vClose := none, vHigh := none,
       vLow := none, vAdjClose := none, vVolume := none },
     { date := "2024-01-02", vOpen := some 12, vClose := some 8, vHigh := none,
       vLow := none, vAdjClose := none, vVolume := none }])]

/-- A two-ticker dataset for the parity and endpoint witnesses. -/
def exampleD : DatasetData :=
  [("A",
    [{ date := "2024-01-01", vOpen := some 1, vClose := some 2, vHigh := some 3,
       vLow := some 1, vAdjClose := some 2, vVolume := some 100 },
     { date := "2024-01-02", vOpen := some 3, vClose := some 5, vHigh := some 6,
       vLow := some 2, vAdjClose := some 5, vVolume := some 200 }]),
   ("B",
    [{ date := "2024-01-01", vOpen := some 7, vClose := some 4, vHigh := some 9,
       vLow := some 3, vAdjClose := some 4, vVolume := some 50 }])]

/-- A service state holding exampleD, with an empty cache. -/
def exampleState : EngineState :=
  { dataset := { data := exampleD, version := 3 }
    cache := []
    loading := false
    loaderConn := "ok"
    loaderStatus := [("status", Json.strJ "ok")] }

/-- The empty-dataset state used by the idempotent-reload counterexample. -/
def emptyState : EngineState :=
  { dataset := { data := [], version := 0 }
    cache := []
    loading := false
    loaderConn := "ok"
    loaderStatus := [] }

/-- A dataset with the same open/close values as exampleD but different
high/low/adj-close/volume values, for the price-scoping witness. -/
def exampleD2 : DatasetData :=
  [("A",
    [{ date := "2024-01-01", vOpen := some 1, vClose := some 2, vHigh := some 30,
       vLow := none, vAdjClose := some 20, vVolume := some 999 },
     { date := "2024-01-02", vOpen := some 3, vClose := some 5, vHigh := none,
       vLow := some 22, vAdjClose := none, vVolume := none }]),
   ("B",
    [{ date := "2024-01-01", vOpen := some 7, vClose := some 4, vHigh := some 90,
       vLow := some 33, vAdjClose := some 44, vVolume := some 5 }])]

/-- A state with the same snapshot as exampleState but different cache,
loading flag and loader connectivity, for the determinism witness. -/
def exampleState2 : EngineState :=
  { dataset := { data := exampleD, version := 3 }
    cache := [((2, (["A"], [Field.fOpen])), seqCompute exampleD ["A"] [Field.fOpen])]
    loading := true
    loaderConn := "error"
    loaderStatus := [] }

/-- A concrete health-poll trace for the auto-reload witness: an initial
null healthData, a poll with the loader connecting, a poll that satisfies
the trigger conditions, and two later polls that must not re-trigger. -/
def demoEvents : List (Option HealthData) :=
  [none,
   some { data_loaded := false, ms_loader_connection := some "connecting" },
   some { data_loaded := false, ms_loader_connection := some "OK" },
   some { data_loaded := false, ms_loader_connection := some "ok" },
   some { data_loaded := true, ms_loader_connection := some "ok" }]

/-! Helper lemmas: optional min/max folds -/

theorem optMin_assoc (a b c : Option ℚ) :
    optMin (optMin a b) c = optMin a (optMin b c) := by
  cases a <;> cases b <;> cases c <;> simp [optMin, min_assoc]

theorem optMin_comm (a b : Option ℚ) : optMin a b = optMin b a := by
  cases a <;> cases b <;> simp [optMin, min_comm]

theorem optMax_assoc (a b c : Option ℚ) :
    optMax (optMax a b) c = optMax a (optMax b c) := by
  cases a <;> cases b <;> cases c <;> simp [optMax, max_assoc]

theorem optMax_comm (a b : Option ℚ) : optMax a b = optMax b a := by
  cases a <;> cases b <;> simp [optMax, max_comm]

theorem listMin_cons (x : ℚ) (l : List ℚ) :
    listMin (x :: l) = optMin (some x) (listMin l) := rfl

theorem listMax_cons (x : ℚ) (l : List ℚ) :
    listMax (x :: l) = optMax (some x) (listMax l) := rfl

theorem listMin_append (l r : List ℚ) :
    listMin (l ++ r) = optMin (listMin l) (listMin r) := by
  induction l with
  | nil => rfl
  | cons x l ih =>
      rw [List.cons_append, listMin_cons, ih, listMin_cons, optMin_assoc]

theorem listMax_append (l r : List ℚ) :
    listMax (l ++ r) = optMax (listMax l) (listMax r) := by
  induction l with
  | nil => rfl
  | cons x l ih =>
      rw [List.cons_append, listMax_cons, ih, listMax_cons, optMax_assoc]

theorem listMin_perm {l r : List ℚ} (h : l.Perm r) : listMin l = listMin r := by
  induction h with
  | nil => rfl
  | cons x _ ih => rw [listMin_cons, listMin_cons, ih]
  | swap x y t =>
      rw [listMin_cons, listMin_cons, listMin_cons, listMin_cons,
        ← optMin_assoc, ← optMin_assoc, optMin_comm (some y) (some x)]
  | trans _ _ ih1 ih2 => rw [ih1, ih2]

theorem listMax_perm {l r : List ℚ} (h : l.Perm r) : listMax l = listMax r := by
  induction h with
  | nil => rfl
  | cons x _ ih => rw [listMax_cons, listMax_cons, ih]
  | swap x y t =>
      rw [listMax_cons, listMax_cons, listMax_cons, listMax_cons,
        ← optMax_assoc, ← optMax_assoc, optMax_comm (some y) (some x)]
  | trans _ _ ih1 ih2 => rw [ih1, ih2]

/-! Helper lemmas: sorting and merging -/

theorem sortVals_sorted (l : List ℚ) :
    List.Sorted (fun a b : ℚ => a ≤ b) (sortVals l) :=
  List.sorted_insertionSort _ l

theorem sortVals_perm (l : List ℚ) : (sortVals l).Perm l :=
  List.perm_insertionSort _ l

theorem sortVals_eq_of_perm {l r : List ℚ} (h : l.Perm r) :
    sortVals l = sortVals r :=
  List.eq_of_perm_of_sorted ((sortVals_perm l).trans (h.trans (sortVals_perm r).symm))
    (sortVals_sorted l) (sortVals_sorted r)

theorem mergeSorted_perm (l r : List ℚ) : (mergeSorted l r).Perm (l ++ r) := by
  induction l with
  | nil => exact List.Perm.refl r
  | cons x l ih =>
      exact (List.perm_orderedInsert _ x (mergeSorted l r)).trans (ih.cons x)

theorem mergeSorted_sorted {l r : List ℚ}
    (hr : List.Sorted (fun a b : ℚ => a ≤ b) r) :
    List.Sorted (fun a b : ℚ => a ≤ b) (mergeSorted l r) := by
  induction l with
  | nil => exact hr
  | cons x l ih => exact List.Sorted.orderedInsert x (mergeSorted l r) ih

theorem sortVals_append (l r : List ℚ) :
    sortVals (l ++ r) = mergeSorted (sortVals l) (sortVals r) :=
  List.eq_of_perm_of_sorted
    ((sortVals_perm (l ++ r)).trans
      (((mergeSorted_perm (sortVals l) (sortVals r)).trans
        ((sortVals_perm l).append (sortVals_perm r))).symm))
    (sortVals_sorted (l ++ r)) (mergeSorted_sorted (sortVals_sorted r))

theorem flatten_perm {α : Type _} {l r : List (List α)} (h : l.Perm r) :
    l.flatten.Perm r.flatten := by
  induction h with
  | nil => exact List.Perm.refl _
  | cons x _ ih => simpa using ih.append_left x
  | swap x y t =>
      simp only [List.flatten_cons]
      rw [← List.append_assoc, ← List.append_assoc]
      exact List.perm_append_comm.append_right t.flatten
  | trans _ _ ih1 ih2 => exact ih1.trans ih2

/-! Helper lemmas: query values and the chunk reduction -/

theorem queryFieldValues_append (d : DatasetData) (a b : List String) (f : Field) :
    queryFieldValues d (a ++ b) f =
      queryFieldValues d a f ++ queryFieldValues d b f := by
  simp [queryFieldValues]

theorem queryFieldValues_perm (d : DatasetData) (f : Field) {t1 t2 : List String}
    (h : t1.Perm t2) : (queryFieldValues d t1 f).Perm (queryFieldValues d t2 f) :=
  flatten_perm (h.map _)

theorem reduceAggs_eq (d : DatasetData) (f : Field) (chunks : List (List String)) :
    reduceAggs (chunks.map (fun c => chunkAggOf d c f)) =
      { count := (queryFieldValues d chunks.flatten f).length
        sum := (queryFieldValues d chunks.flatten f).sum
        minV := listMin (queryFieldValues d chunks.flatten f)
        maxV := listMax (queryFieldValues d chunks.flatten f)
        sorted := sortVals (queryFieldValues d chunks.flatten f) } := by
  induction chunks with
  | nil => rfl
  | cons c cs ih =>
      have hstep : reduceAggs ((c :: cs).map (fun k => chunkAggOf d k f)) =
          mergeAgg (chunkAggOf d c f) (reduceAggs (cs.map (fun k => chunkAggOf d k f))) := rfl
      rw [hstep, ih]
      simp [mergeAgg, chunkAggOf, List.flatten_cons, queryFieldValues_append,
        listMin_append, listMax_append, sortVals_append]

/-- Per-field parity between the Parallel and Sequential strategies, for
every partition of the queried tickers into worker chunks. -/
theorem parFieldStats_eq_seq (d : DatasetData) (ts : List String)
    (chunks : List (List String)) (f : Field) (hp : chunks.flatten.Perm ts) :
    parFieldStats d chunks f = seqFieldStats d ts f := by
  have hv : (queryFieldValues d chunks.flatten f).Perm (queryFieldValues d ts f) :=
    queryFieldValues_perm d f hp
  simp only [parFieldStats, seqFieldStats, reduceAggs_eq]
  rw [hv.length_eq, hv.sum_eq, listMin_perm hv, listMax_perm hv,
    sortVals_eq_of_perm hv]

/-- C1: for every dataset snapshot and query (tickers, numeric fields), the
Sequential and Parallel strategies return identical count, sum, min and max
per field, means within 1e-9 relative tolerance (here exactly equal, since
the model computes in exact rationals), and identical medians, for every
partition of the tickers into worker chunks. -/
theorem claim_C1_engine_parity (d : DatasetData) (ts : List String)
    (chunks : List (List String)) (fs : List Field)
    (hp : chunks.flatten.Perm ts) :
    parCompute d chunks fs = seqCompute d ts fs ∧
    ∀ f ∈ fs, ∀ m1 m2 : ℚ, (parFieldStats d chunks f).meanV = some m1 →
      (seqFieldStats d ts f).meanV = some m2 →
      |m1 - m2| ≤ (1 / 10 ^ 9) * |m2| := by
  refine ⟨?_, ?_⟩
  · simp [parCompute, seqCompute, parFieldStats_eq_seq d ts chunks _ hp]
  · intro f _ m1 m2 hm1 hm2
    rw [parFieldStats_eq_seq d ts chunks f hp, hm2, Option.some_inj] at hm1
    rw [hm1, sub_self, abs_zero]
    exact mul_nonneg (by norm_num) (abs_nonneg _)

/-- Witness for C1: a concrete two-ticker dataset queried over open and
close, with the tickers split into two chunks in reversed order. -/
theorem claim_C1_engine_parity_witness :
    (([["B"], ["A"]] : List (List String)).flatten.Perm ["A", "B"]) ∧
    (parCompute exampleD [["B"], ["A"]] [Field.fOpen, Field.fClose] =
        seqCompute exampleD ["A", "B"] [Field.fOpen, Field.fClose] ∧
      ∀ f ∈ [Field.fOpen, Field.fClose], ∀ m1 m2 : ℚ,
        (parFieldStats exampleD [["B"], ["A"]] f).meanV = some m1 →
        (seqFieldStats exampleD ["A", "B"] f).meanV = some m2 →
        |m1 - m2| ≤ (1 / 10 ^ 9) * |m2|) :=
  ⟨by decide,
    claim_C1_engine_parity exampleD ["A", "B"] [["B"], ["A"]]
      [Field.fOpen, Field.fClose] (by decide)⟩

/-- C2: a reload whose fetch fails or returns an empty/malformed payload
retains the previously active snapshot completely unchanged (same version,
tickers and observations) and reports failure; moreover every reload either
fully retains the old state or fully installs the fetched payload with a
bumped version and a cleared cache — no partially-replaced snapshot is
reachable. -/
theorem claim_C2_reload_failure_atomic (st : EngineState) (outcome : FetchOutcome)
    (hfail : outcome = FetchOutcome.fetchFail ∨
      ∃ p, outcome = FetchOutcome.fetchOk p ∧ recordCount p = 0) :
    reloadStep st outcome = (st, false) ∧
    ∀ st2 out2, (reloadStep st2 out2).1 = st2 ∨
      ∃ p, out2 = FetchOutcome.fetchOk p ∧
        (reloadStep st2 out2).1.dataset.data = p ∧
        (reloadStep st2 out2).1.dataset.version = st2.dataset.version + 1 ∧
        (reloadStep st2 out2).1.cache = [] := by
  constructor
  · rcases hfail with h | ⟨p, hp, hz⟩
    · rw [h]; rfl
    · rw [hp]; simp [reloadStep, hz]
  · intro st2 out2
    cases out2 with
    | fetchFail => exact Or.inl rfl
    | fetchOk p =>
        by_cases hz : recordCount p = 0
        · exact Or.inl (by simp [reloadStep, hz])
        · exact Or.inr ⟨p, rfl, by simp [reloadStep, hz]⟩

/-- Witness for C2: a failed fetch against a concrete populated state. -/
theorem claim_C2_reload_failure_atomic_witness :
    (FetchOutcome.fetchFail = FetchOutcome.fetchFail ∨
      ∃ p, FetchOutcome.fetchFail = FetchOutcome.fetchOk p ∧ recordCount p = 0) ∧
    (reloadStep exampleState FetchOutcome.fetchFail = (exampleState, false) ∧
      ∀ st2 out2, (reloadStep st2 out2).1 = st2 ∨
        ∃ p, out2 = FetchOutcome.fetchOk p ∧
          (reloadStep st2 out2).1.dataset.data = p ∧
          (reloadStep st2 out2).1.dataset.version = st2.dataset.version + 1 ∧
          (reloadStep st2 out2).1.cache = []) :=
  ⟨Or.inl rfl,
    claim_C2_reload_failure_atomic exampleState FetchOutcome.fetchFail (Or.inl rfl)⟩

/-- C3: an observation whose field is absent/NaN is excluded from that
aggregates of that field rather than coerced to zero; concretely, on the dataset
AAA -> [(open 10, close NaN), (open 12, close 8)] the close aggregates see
one valid sample (count 1, mean 8) and the open mean is 11. -/
theorem claim_C3_missing_field (name : String) (s : TickerSeries)
    (o : Observation) (f : Field) (h : o.fieldVal f = none) :
    seqFieldStats [(name, o :: s)] [name] f = seqFieldStats [(name, s)] [name] f ∧
    (seqFieldStats exampleC3 ["AAA"] Field.fClose).count = 1 ∧
    (seqFieldStats exampleC3 ["AAA"] Field.fClose).meanV = some 8 ∧
    (seqFieldStats exampleC3 ["AAA"] Field.fOpen).meanV = some 11 := by
  have hclose : queryFieldValues exampleC3 ["AAA"] Field.fClose = [8] := by decide
  have hopen : queryFieldValues exampleC3 ["AAA"] Field.fOpen = [10, 12] := by decide
  refine ⟨?_, ?_, ?_, ?_⟩
  · have hv : queryFieldValues [(name, o :: s)] [name] f =
        queryFieldValues [(name, s)] [name] f := by
      simp [queryFieldValues, tickerFieldValues, lookupSeries, List.find?,
        seriesFieldValues, h]
    simp [seqFieldStats, hv]
  · simp [seqFieldStats, hclose]
  · norm_num [seqFieldStats, hclose, meanOf]
  · norm_num [seqFieldStats, hopen, meanOf]

/-- Witness for C3: the second observation of the example has no close
value, so dropping it from the AAA series leaves the close aggregates
unchanged. -/
theorem claim_C3_missing_field_witness :
    (Observation.fieldVal
        { date := "2024-01-01", vOpen := some 10, vClose := none, vHigh := none,
          vLow := none, vAdjClose := none, vVolume := none } Field.fClose = none) ∧
    (seqFieldStats
        [("AAA",
          [{ date := "2024-01-01", vOpen := some 10, vClose := none, vHigh := none,
             vLow := none, vAdjClose := none, vVolume := none }])]
        ["AAA"] Field.fClose =
      seqFieldStats [("AAA", [])] ["AAA"] Field.fClose ∧
      (seqFieldStats exampleC3 ["AAA"] Field.fClose).count = 1 ∧
      (seqFieldStats exampleC3 ["AAA"] Field.fClose).meanV = some 8 ∧
      (seqFieldStats exampleC3 ["AAA"] Field.fOpen).meanV = some 11) :=
  ⟨rfl,
    claim_C3_missing_field "AAA" []
      { date := "2024-01-01", vOpen := some 10, vClose := none, vHigh := none,
        vLow := none, vAdjClose := none, vVolume := none } Field.fClose rfl⟩

/-- C6 counterexample: on the empty snapshot, a reload that fetches a
payload equal to the current dataset does not increment the version — the
engine treats the empty payload as a failed reload (§4.1) and keeps
version 0, so the claim fails as stated for the empty current dataset. -/
theorem claim_C6_counterexample :
    ¬ ((reloadStep emptyState
          (FetchOutcome.fetchOk emptyState.dataset.data)).1.dataset.version =
        emptyState.dataset.version + 1) := by
  decide

/-- C6 (amended): for every current dataset holding at least one record
(and a cache consistent with the snapshot), a reload fetching an upstream
dataset equal to the current one still increments the snapshot version and
clears the cache, yet every query returns the same StatisticsResult after
the reload as before it. -/
theorem claim_C6_idempotent_reload (st : EngineState) (payload : DatasetData)
    (hcc : cacheConsistent st) (heq : payload = st.dataset.data)
    (hne : recordCount payload ≠ 0) :
    (reloadStep st (FetchOutcome.fetchOk payload)).2 = true ∧
    (reloadStep st (FetchOutcome.fetchOk payload)).1.dataset.version =
      st.dataset.version + 1 ∧
    (reloadStep st (FetchOutcome.fetchOk payload)).1.cache = [] ∧
    ∀ q, queryAnswer (reloadStep st (FetchOutcome.fetchOk payload)).1 q =
      queryAnswer st q := by
  have hstep : reloadStep st (FetchOutcome.fetchOk payload) =
      ({ st with
          dataset := { data := payload, version := st.dataset.version + 1 }
          cache := [] }, true) := by
    simp [reloadStep, hne]
  refine ⟨by rw [hstep], by rw [hstep], by rw [hstep], ?_⟩
  intro q
  have hr : queryAnswer st q = seqCompute st.dataset.data q.1 q.2 := by
    unfold queryAnswer
    cases hold : cacheLookup st.cache (st.dataset.version, q) with
    | none => rfl
    | some r => exact hcc q r hold
  rw [hstep, hr]
  show seqCompute payload q.1 q.2 = seqCompute st.dataset.data q.1 q.2
  rw [heq]

/-- Witness for C6 (amended): reloading the concrete populated state with
its own dataset. -/
theorem claim_C6_idempotent_reload_witness :
    (cacheConsistent exampleState ∧ exampleD = exampleState.dataset.data ∧
      recordCount exampleD ≠ 0) ∧
    ((reloadStep exampleState (FetchOutcome.fetchOk exampleD)).2 = true ∧
      (reloadStep exampleState (FetchOutcome.fetchOk exampleD)).1.dataset.version =
        exampleState.dataset.version + 1 ∧
      (reloadStep exampleState (FetchOutcome.fetchOk exampleD)).1.cache = [] ∧
      ∀ q, queryAnswer (reloadStep exampleState (FetchOutcome.fetchOk exampleD)).1 q =
        queryAnswer exampleState q) :=
  ⟨⟨fun q r hqr => by simp [cacheLookup, exampleState] at hqr, rfl, by decide⟩,
    claim_C6_idempotent_reload exampleState exampleD
      (fun q r hqr => by simp [cacheLookup, exampleState] at hqr) rfl (by decide)⟩

/-- The output of the Parallel strategy, written directly over the merged value
list of the whole partition. -/
theorem parFieldStats_eq (d : DatasetData) (chunks : List (List String)) (f : Field) :
    parFieldStats d chunks f =
      { count := (queryFieldValues d chunks.flatten f).length
        sum := (queryFieldValues d chunks.flatten f).sum
        minV := listMin (queryFieldValues d chunks.flatten f)
        maxV := listMax (queryFieldValues d chunks.flatten f)
        meanV := meanOf (queryFieldValues d chunks.flatten f).length
          (queryFieldValues d chunks.flatten f).sum
        medianV := medianSorted (sortVals (queryFieldValues d chunks.flatten f)) } := by
  simp [parFieldStats, reduceAggs_eq]

/-- C4: for every field query, mean = sum/count, undefined (none) exactly
when the valid-sample count is 0; the median of an even-length sorted list
is the average of the two central values; and the Sequential and Parallel
strategies both use exactly these definitions. -/
theorem claim_C4_mean_median_defs (d : DatasetData) (ts : List String)
    (chunks : List (List String)) (f : Field) :
    ((seqFieldStats d ts f).meanV =
        meanOf (seqFieldStats d ts f).count (seqFieldStats d ts f).sum) ∧
    ((parFieldStats d chunks f).meanV =
        meanOf (parFieldStats d chunks f).count (parFieldStats d chunks f).sum) ∧
    ((seqFieldStats d ts f).count = 0 → (seqFieldStats d ts f).meanV = none) ∧
    ((seqFieldStats d ts f).count ≠ 0 →
      (seqFieldStats d ts f).meanV =
        some ((seqFieldStats d ts f).sum / ((seqFieldStats d ts f).count : ℚ))) ∧
    ((parFieldStats d chunks f).count = 0 → (parFieldStats d chunks f).meanV = none) ∧
    ((parFieldStats d chunks f).count ≠ 0 →
      (parFieldStats d chunks f).meanV =
        some ((parFieldStats d chunks f).sum / ((parFieldStats d chunks f).count : ℚ))) ∧
    (∀ s : List ℚ, s.length % 2 = 0 → s ≠ [] →
      ∃ a b, s[s.length / 2 - 1]? = some a ∧ s[s.length / 2]? = some b ∧
        medianSorted s = some ((a + b) / 2)) ∧
    ((seqFieldStats d ts f).medianV =
        medianSorted (sortVals (queryFieldValues d ts f))) ∧
    ((parFieldStats d chunks f).medianV =
        medianSorted (sortVals (queryFieldValues d chunks.flatten f))) := by
  have hpar := parFieldStats_eq d chunks f
  refine ⟨rfl, rfl, ?_, ?_, ?_, ?_, ?_, rfl, ?_⟩
  · intro h0
    show meanOf (queryFieldValues d ts f).length (queryFieldValues d ts f).sum = none
    have h0q : (queryFieldValues d ts f).length = 0 := h0
    simp [meanOf, h0q]
  · intro h0
    show meanOf (queryFieldValues d ts f).length (queryFieldValues d ts f).sum =
      some ((queryFieldValues d ts f).sum / ((queryFieldValues d ts f).length : ℚ))
    have h0q : (queryFieldValues d ts f).length ≠ 0 := h0
    rw [meanOf, if_neg h0q]
  · intro h0
    rw [hpar] at h0 ⊢
    simp only [meanOf] at h0 ⊢
    simp [h0]
  · intro h0
    rw [hpar] at h0 ⊢
    simp only at h0 ⊢
    rw [meanOf, if_neg h0]
  · intro s hev hne
    have hlen : s.length ≠ 0 := fun hz => hne (List.eq_nil_of_length_eq_zero hz)
    have hpos : 0 < s.length := Nat.pos_of_ne_zero hlen
    have h2 : s.length / 2 < s.length := Nat.div_lt_self hpos (by norm_num)
    have h1 : s.length / 2 - 1 < s.length := lt_of_le_of_lt (Nat.sub_le _ _) h2
    refine ⟨s[s.length / 2 - 1], s[s.length / 2],
      List.getElem?_eq_getElem h1, List.getElem?_eq_getElem h2, ?_⟩
    rw [medianSorted, if_neg hlen, if_neg (by omega)]
    simp [List.getElem?_eq_getElem h1, List.getElem?_eq_getElem h2]
  · rw [hpar]

/-- Witness for C4: the definitions instantiated on the concrete
two-ticker dataset and a two-chunk partition. -/
theorem claim_C4_mean_median_defs_witness :
    ((seqFieldStats exampleD ["A", "B"] Field.fOpen).meanV =
        meanOf (seqFieldStats exampleD ["A", "B"] Field.fOpen).count
          (seqFieldStats exampleD ["A", "B"] Field.fOpen).sum) ∧
    ((parFieldStats exampleD [["A"], ["B"]] Field.fOpen).meanV =
        meanOf (parFieldStats exampleD [["A"], ["B"]] Field.fOpen).count
          (parFieldStats exampleD [["A"], ["B"]] Field.fOpen).sum) ∧
    ((seqFieldStats exampleD ["A", "B"] Field.fOpen).count = 0 →
      (seqFieldStats exampleD ["A", "B"] Field.fOpen).meanV = none) ∧
    ((seqFieldStats exampleD ["A", "B"] Field.fOpen).count ≠ 0 →
      (seqFieldStats exampleD ["A", "B"] Field.fOpen).meanV =
        some ((seqFieldStats exampleD ["A", "B"] Field.fOpen).sum /
          ((seqFieldStats exampleD ["A", "B"] Field.fOpen).count : ℚ))) ∧
    ((parFieldStats exampleD [["A"], ["B"]] Field.fOpen).count = 0 →
      (parFieldStats exampleD [["A"], ["B"]] Field.fOpen).meanV = none) ∧
    ((parFieldStats exampleD [["A"], ["B"]] Field.fOpen).count ≠ 0 →
      (parFieldStats exampleD [["A"], ["B"]] Field.fOpen).meanV =
        some ((parFieldStats exampleD [["A"], ["B"]] Field.fOpen).sum /
          ((parFieldStats exampleD [["A"], ["B"]] Field.fOpen).count : ℚ))) ∧
    (∀ s : List ℚ, s.length % 2 = 0 → s ≠ [] →
      ∃ a b, s[s.length / 2 - 1]? = some a ∧ s[s.length / 2]? = some b ∧
        medianSorted s = some ((a + b) / 2)) ∧
    ((seqFieldStats exampleD ["A", "B"] Field.fOpen).medianV =
        medianSorted (sortVals (queryFieldValues exampleD ["A", "B"] Field.fOpen))) ∧
    ((parFieldStats exampleD [["A"], ["B"]] Field.fOpen).medianV =
        medianSorted (sortVals
          (queryFieldValues exampleD ([["A"], ["B"]] : List (List String)).flatten
            Field.fOpen))) :=
  claim_C4_mean_median_defs exampleD ["A", "B"] [["A"], ["B"]] Field.fOpen

/-- A ticker absent from the dataset has no stored series. -/
theorem lookupSeries_eq_none (d : DatasetData) (t : String)
    (h : t ∉ allTickers d) : lookupSeries d t = none := by
  unfold lookupSeries
  have hfind : d.find? (fun p => p.1 == t) = none := by
    rw [List.find?_eq_none]
    intro p hp
    simp only [beq_iff_eq]
    intro he
    exact h (he ▸ List.mem_map_of_mem Prod.fst hp)
  rw [hfind]
  rfl

/-- C5: requesting per-ticker statistics for a ticker absent from the
dataset yields a not-found error outcome, never a success response (in
particular never an ok response carrying empty statistics). -/
theorem claim_C5_unknown_ticker (d : DatasetData) (t : String)
    (h : t ∉ allTickers d) :
    (∃ msg, statsByTicker d t = Except.error msg) ∧
    ∀ body, statsByTicker d t ≠ Except.ok body := by
  have hl : lookupSeries d t = none := lookupSeries_eq_none d t h
  refine ⟨⟨"Ticker " ++ t ++ " not found", ?_⟩, ?_⟩
  · simp [statsByTicker, hl]
  · intro body hbody
    simp [statsByTicker, hl] at hbody

/-- Witness for C5: the ticker ZZZZ against the concrete dataset that does
not contain it. -/
theorem claim_C5_unknown_ticker_witness :
    ("ZZZZ" ∉ allTickers exampleD) ∧
    ((∃ msg, statsByTicker exampleD "ZZZZ" = Except.error msg) ∧
      ∀ body, statsByTicker exampleD "ZZZZ" ≠ Except.ok body) :=
  ⟨by decide, claim_C5_unknown_ticker exampleD "ZZZZ" (by decide)⟩

/-- C7: every /health response is a JSON object carrying the six
documented fields — boolean data_loaded and loading, an integer (natural
number) records count, a message string, a loader-connection string and a
loader-status object. -/
theorem claim_C7_health_shape (st : EngineState) :
    (∃ b : Bool, (healthResponse st).lookupKey "data_loaded" = some (Json.boolJ b)) ∧
    (∃ b : Bool, (healthResponse st).lookupKey "loading" = some (Json.boolJ b)) ∧
    ((healthResponse st).lookupKey "records" =
      some (Json.numJ ((recordCount st.dataset.data : ℚ)))) ∧
    (∃ m : String, (healthResponse st).lookupKey "message" = some (Json.strJ m)) ∧
    ((healthResponse st).lookupKey "ms_loader_connection" =
      some (Json.strJ st.loaderConn)) ∧
    (∃ fs2, (healthResponse st).lookupKey "ms_loader_status" =
      some (Json.objJ fs2)) := by
  exact ⟨⟨decide (recordCount st.dataset.data ≠ 0), rfl⟩,
    ⟨st.loading, rfl⟩, rfl,
    ⟨if recordCount st.dataset.data ≠ 0 then "Data loaded" else "No data loaded", rfl⟩,
    rfl, ⟨st.loaderStatus, rfl⟩⟩

/-- C9: the ticker sample of the summary is selected deterministically — it
depends only on the snapshot data (not on cache, loading flag or loader
state), equals the first-N tickers in insertion order, is bounded by N,
and is an initial segment of the ticker list of the dataset; hence any two
calls on the same snapshot return exactly the same sample_tickers. -/
theorem claim_C9_summary_deterministic (st st2 : EngineState)
    (h : st.dataset.data = st2.dataset.data) :
    summaryOf st = summaryOf st2 ∧
    sampleOf st = sampleOf st2 ∧
    sampleOf st = (allTickers st.dataset.data).take sampleBound ∧
    (sampleOf st).length ≤ sampleBound ∧
    ∃ rest, allTickers st.dataset.data = sampleOf st ++ rest := by
  refine ⟨by rw [summaryOf, summaryOf, h], by rw [sampleOf, sampleOf, h], rfl, ?_, ?_⟩
  · show ((allTickers st.dataset.data).take sampleBound).length ≤ sampleBound
    rw [List.length_take]
    exact min_le_left _ _
  · exact ⟨(allTickers st.dataset.data).drop sampleBound,
      (List.take_append_drop _ _).symm⟩

/-- Witness for C9: the two concrete states share the snapshot but differ
in cache, loading flag and loader connectivity. -/
theorem claim_C9_summary_deterministic_witness :
    (exampleState.dataset.data = exampleState2.dataset.data) ∧
    (summaryOf exampleState = summaryOf exampleState2 ∧
      sampleOf exampleState = sampleOf exampleState2 ∧
      sampleOf exampleState = (allTickers exampleState.dataset.data).take sampleBound ∧
      (sampleOf exampleState).length ≤ sampleBound ∧
      ∃ rest, allTickers exampleState.dataset.data = sampleOf exampleState ++ rest) :=
  ⟨rfl, claim_C9_summary_deterministic exampleState exampleState2 rfl⟩

/-- Each run of the auto-reload effect either leaves the frontend state
unchanged, or (only from an untriggered state) raises the flag and issues
exactly one reload request. -/
theorem autoReloadEffect_cases (st : AutoReloadState) (e : Option HealthData) :
    autoReloadEffect st e = st ∨
      (st.autoReloadTriggered = false ∧
        autoReloadEffect st e =
          { autoReloadTriggered := true, reloadRequests := st.reloadRequests + 1 }) := by
  cases e with
  | none => exact Or.inl rfl
  | some hd =>
      by_cases ht : st.autoReloadTriggered = true
      · exact Or.inl (by simp [autoReloadEffect, ht])
      · rw [Bool.not_eq_true] at ht
        unfold autoReloadEffect
        simp only [ht, Bool.false_eq_true, if_false]
        split
        · exact Or.inr ⟨trivial, rfl⟩
        · exact Or.inl rfl

/-- After the flag is up, every later run of the effect is a no-op. -/
theorem autoReloadEffect_triggered (st : AutoReloadState) (e : Option HealthData)
    (h : st.autoReloadTriggered = true) : autoReloadEffect st e = st := by
  cases e with
  | none => rfl
  | some hd => simp [autoReloadEffect, h]

/-- Folding the effect over any trace adds at most one reload request, and
none at all from a triggered state. -/
theorem autoReload_fold_bound (events : List (Option HealthData)) :
    ∀ st : AutoReloadState,
      (events.foldl autoReloadEffect st).reloadRequests ≤
        st.reloadRequests + (if st.autoReloadTriggered = true then 0 else 1) := by
  induction events with
  | nil => intro st; cases h : st.autoReloadTriggered <;> simp [h]
  | cons e rest ih =>
      intro st
      rcases autoReloadEffect_cases st e with heq | ⟨hflag, heq⟩
      · rw [List.foldl_cons, heq]
        exact ih st
      · rw [List.foldl_cons, heq, hflag]
        have hb := ih ⟨true, st.reloadRequests + 1⟩
        simpa using hb

/-- The effect can change the state only when the flag is down, the loader
connectivity tag lower-cases to "ok" and data_loaded is not true; and then
it raises the flag and issues exactly one request. -/
theorem autoReloadEffect_fire (st : AutoReloadState) (hd : HealthData)
    (hne : autoReloadEffect st (some hd) ≠ st) :
    st.autoReloadTriggered = false ∧
    (∃ s, hd.ms_loader_connection = some s ∧ strToLower s = "ok") ∧
    hd.data_loaded = false ∧
    (autoReloadEffect st (some hd)).autoReloadTriggered = true ∧
    (autoReloadEffect st (some hd)).reloadRequests = st.reloadRequests + 1 := by
  by_cases ht : st.autoReloadTriggered = true
  · exact absurd (autoReloadEffect_triggered st (some hd) ht) hne
  rw [Bool.not_eq_true] at ht
  cases hcs : hd.ms_loader_connection with
  | none =>
      exact absurd (by simp [autoReloadEffect, ht, hcs]) hne
  | some s =>
      by_cases hok : strToLower s = "ok"
      · by_cases hdl : hd.data_loaded = true
        · exact absurd (by simp [autoReloadEffect, ht, hcs, hdl]) hne
        · rw [Bool.not_eq_true] at hdl
          refine ⟨ht, ⟨s, rfl, hok⟩, hdl, ?_, ?_⟩
          · simp [autoReloadEffect, ht, hcs, hok, hdl]
          · simp [autoReloadEffect, ht, hcs, hok, hdl]
      · exact absurd (by simp [autoReloadEffect, ht, hcs, hok]) hne

/-- C10: the automatic reload effect of the frontend App component issues
GET /stats/reload at most once per mounted session; it fires only from an
untriggered state on a health payload whose ms_loader_connection
lower-cases to "ok" while data_loaded is not true, and once fired the
autoReloadTriggered flag makes every later health poll a no-op. -/
theorem claim_C10_auto_reload_once (events : List (Option HealthData)) :
    (runAutoReload events).reloadRequests ≤ 1 ∧
    (∀ st e, st.autoReloadTriggered = true → autoReloadEffect st e = st) ∧
    (∀ (st : AutoReloadState) (hd : HealthData),
      autoReloadEffect st (some hd) ≠ st →
      st.autoReloadTriggered = false ∧
      (∃ s, hd.ms_loader_connection = some s ∧ strToLower s = "ok") ∧
      hd.data_loaded = false ∧
      (autoReloadEffect st (some hd)).autoReloadTriggered = true ∧
      (autoReloadEffect st (some hd)).reloadRequests = st.reloadRequests + 1) := by
  refine ⟨?_, autoReloadEffect_triggered, autoReloadEffect_fire⟩
  have hb := autoReload_fold_bound events initialAutoReloadState
  simpa [runAutoReload, initialAutoReloadState] using hb

/-- Witness for C10: a concrete five-poll trace in which the third poll
fires the reload and the later polls cannot re-trigger it. -/
theorem claim_C10_auto_reload_once_witness :
    ((runAutoReload demoEvents).reloadRequests ≤ 1 ∧
      (∀ st e, st.autoReloadTriggered = true → autoReloadEffect st e = st) ∧
      (∀ (st : AutoReloadState) (hd : HealthData),
        autoReloadEffect st (some hd) ≠ st →
        st.autoReloadTriggered = false ∧
        (∃ s, hd.ms_loader_connection = some s ∧ strToLower s = "ok") ∧
        hd.data_loaded = false ∧
        (autoReloadEffect st (some hd)).autoReloadTriggered = true ∧
        (autoReloadEffect st (some hd)).reloadRequests = st.reloadRequests + 1)) ∧
    (runAutoReload demoEvents).reloadRequests = 1 :=
  ⟨claim_C10_auto_reload_once demoEvents, by decide⟩

/-! Helper lemmas for the price endpoint -/

theorem listMin_isSome {l : List ℚ} (h : l ≠ []) : ∃ q, listMin l = some q := by
  cases l with
  | nil => exact absurd rfl h
  | cons x t =>
      rw [listMin_cons]
      cases listMin t with
      | none => exact ⟨x, rfl⟩
      | some m => exact ⟨min x m, rfl⟩

theorem listMax_isSome {l : List ℚ} (h : l ≠ []) : ∃ q, listMax l = some q := by
  cases l with
  | nil => exact absurd rfl h
  | cons x t =>
      rw [listMax_cons]
      cases listMax t with
      | none => exact ⟨x, rfl⟩
      | some m => exact ⟨max x m, rfl⟩

theorem meanOf_isSome {n : Nat} (h : n ≠ 0) (x : ℚ) : ∃ q, meanOf n x = some q :=
  ⟨x / (n : ℚ), by rw [meanOf, if_neg h]⟩

theorem medianSorted_isSome {s : List ℚ} (h : s.length ≠ 0) :
    ∃ q, medianSorted s = some q := by
  by_cases hodd : s.length % 2 = 1
  · have hidx : s.length / 2 < s.length :=
      Nat.div_lt_self (Nat.pos_of_ne_zero h) one_lt_two
    exact ⟨s[s.length / 2],
      by rw [medianSorted, if_neg h, if_pos hodd]; exact List.getElem?_eq_getElem hidx⟩
  · have h2 : s.length / 2 < s.length :=
      Nat.div_lt_self (Nat.pos_of_ne_zero h) one_lt_two
    have h1 : s.length / 2 - 1 < s.length := lt_of_le_of_lt (Nat.sub_le _ _) h2
    refine ⟨(s[s.length / 2 - 1] + s[s.length / 2]) / 2, ?_⟩
    rw [medianSorted, if_neg h, if_neg hodd]
    simp [List.getElem?_eq_getElem h1, List.getElem?_eq_getElem h2]

theorem seriesFieldValues_fOpen_oc {s s2 : TickerSeries}
    (h : s.map ocPair = s2.map ocPair) :
    seriesFieldValues s Field.fOpen = seriesFieldValues s2 Field.fOpen := by
  have hx : ∀ u : TickerSeries, seriesFieldValues u Field.fOpen =
      (u.map ocPair).filterMap (fun pr => pr.1) := by
    intro u
    rw [List.filterMap_map]
    rfl
  rw [hx, hx, h]

theorem seriesFieldValues_fClose_oc {s s2 : TickerSeries}
    (h : s.map ocPair = s2.map ocPair) :
    seriesFieldValues s Field.fClose = seriesFieldValues s2 Field.fClose := by
  have hx : ∀ u : TickerSeries, seriesFieldValues u Field.fClose =
      (u.map ocPair).filterMap (fun pr => pr.2) := by
    intro u
    rw [List.filterMap_map]
    rfl
  rw [hx, hx, h]

theorem ocp_lookup {d d2 : DatasetData} (h : ocProjection d = ocProjection d2)
    (t : String) :
    Option.map (fun s => s.map ocPair) (lookupSeries d t) =
      Option.map (fun s => s.map ocPair) (lookupSeries d2 t) := by
  induction d generalizing d2 with
  | nil =>
      have h2 : d2 = [] := by
        have hh : ocProjection d2 = [] := h.symm
        rwa [ocProjection, List.map_eq_nil_iff] at hh
      rw [h2]
  | cons p dt ih =>
      cases d2 with
      | nil => exact absurd h (by simp [ocProjection])
      | cons q d2t =>
          rw [ocProjection, ocProjection, List.map_cons, List.map_cons] at h
          injection h with h1 h2
          have hfst : p.1 = q.1 := (Prod.ext_iff.mp h1).1
          have hsnd : p.2.map ocPair = q.2.map ocPair := (Prod.ext_iff.mp h1).2
          have hqt : (q.1 == t) = (p.1 == t) := by rw [hfst]
          simp only [lookupSeries, List.find?, hqt]
          cases hbt : (p.1 == t) with
          | true => simp [hsnd]
          | false => exact ih h2

theorem tickerFieldValues_oc {d d2 : DatasetData}
    (h : ocProjection d = ocProjection d2) (t : String) :
    tickerFieldValues d t Field.fOpen = tickerFieldValues d2 t Field.fOpen ∧
    tickerFieldValues d t Field.fClose = tickerFieldValues d2 t Field.fClose := by
  have hl := ocp_lookup h t
  unfold tickerFieldValues
  cases h1 : lookupSeries d t with
  | none =>
      cases h2 : lookupSeries d2 t with
      | none => exact ⟨rfl, rfl⟩
      | some s2 => rw [h1, h2] at hl; exact absurd hl (by simp)
  | some s1 =>
      cases h2 : lookupSeries d2 t with
      | none => rw [h1, h2] at hl; exact absurd hl (by simp)
      | some s2 =>
          rw [h1, h2] at hl
          have hm : s1.map ocPair = s2.map ocPair := by simpa using hl
          exact ⟨seriesFieldValues_fOpen_oc hm, seriesFieldValues_fClose_oc hm⟩

theorem allTickers_oc {d d2 : DatasetData}
    (h : ocProjection d = ocProjection d2) : allTickers d = allTickers d2 := by
  have hx : ∀ u : DatasetData, allTickers u = (ocProjection u).map Prod.fst := by
    intro u
    rw [ocProjection, List.map_map]
    rfl
  rw [hx, hx, h]

theorem queryFieldValues_oc {d d2 : DatasetData}
    (h : ocProjection d = ocProjection d2) (ts : List String) (f : Field)
    (hf : f = Field.fOpen ∨ f = Field.fClose) :
    queryFieldValues d ts f = queryFieldValues d2 ts f := by
  unfold queryFieldValues
  congr 1
  induction ts with
  | nil => rfl
  | cons t ts2 ih =>
      rw [List.map_cons, List.map_cons, ih]
      rcases hf with rfl | rfl
      · rw [(tickerFieldValues_oc h t).1]
      · rw [(tickerFieldValues_oc h t).2]

theorem seqFieldStats_congr {d d2 : DatasetData} {ts ts2 : List String} {f : Field}
    (h : queryFieldValues d ts f = queryFieldValues d2 ts2 f) :
    seqFieldStats d ts f = seqFieldStats d2 ts2 f := by
  unfold seqFieldStats
  rw [h]

theorem pricesResponse_oc_only {d d2 : DatasetData}
    (h : ocProjection d = ocProjection d2) :
    pricesResponse d = pricesResponse d2 := by
  have ht := allTickers_oc h
  have ho : seqFieldStats d (allTickers d) Field.fOpen =
      seqFieldStats d2 (allTickers d2) Field.fOpen :=
    seqFieldStats_congr
      ((queryFieldValues_oc h (allTickers d) Field.fOpen (Or.inl rfl)).trans
        (congrArg (fun l => queryFieldValues d2 l Field.fOpen) ht))
  have hc : seqFieldStats d (allTickers d) Field.fClose =
      seqFieldStats d2 (allTickers d2) Field.fClose :=
    seqFieldStats_congr
      ((queryFieldValues_oc h (allTickers d) Field.fClose (Or.inr rfl)).trans
        (congrArg (fun l => queryFieldValues d2 l Field.fClose) ht))
  simp [pricesResponse, reducerObj, priceFields, ho, hc]

theorem reducerObj_price_lookup (d : DatasetData) (ts : List String)
    (pick : FieldStats → Option ℚ) (qo qc : ℚ)
    (h1 : pick (seqFieldStats d ts Field.fOpen) = some qo)
    (h2 : pick (seqFieldStats d ts Field.fClose) = some qc) :
    (reducerObj d ts pick priceFields).lookupKey "open" = some (Json.numJ qo) ∧
    (reducerObj d ts pick priceFields).lookupKey "close" = some (Json.numJ qc) := by
  constructor
  · show some (encOpt (pick (seqFieldStats d ts Field.fOpen))) = some (Json.numJ qo)
    rw [h1]
    rfl
  · show some (encOpt (pick (seqFieldStats d ts Field.fClose))) = some (Json.numJ qc)
    rw [h2]
    rfl

/-- C8: every /stats/prices response wraps the four reducers in the
price_statistics object, each reducer entry carrying numeric open and
close values (given at least one valid open and close sample), and the
price result is computed over the open and close fields only — datasets
agreeing on open/close produce identical price responses. -/
theorem claim_C8_prices_shape (d d2 : DatasetData)
    (hoc : ocProjection d = ocProjection d2)
    (hopen : queryFieldValues d (allTickers d) Field.fOpen ≠ [])
    (hclose : queryFieldValues d (allTickers d) Field.fClose ≠ []) :
    (∃ ps, (pricesResponse d).lookupKey "price_statistics" = some ps ∧
      ∀ k ∈ ["min", "median", "mean", "max"],
        ∃ entry qo qc, ps.lookupKey k = some entry ∧
          entry.lookupKey "open" = some (Json.numJ qo) ∧
          entry.lookupKey "close" = some (Json.numJ qc)) ∧
    pricesResponse d = pricesResponse d2 := by
  have hoplen : (queryFieldValues d (allTickers d) Field.fOpen).length ≠ 0 :=
    fun hz => hopen (List.eq_nil_of_length_eq_zero hz)
  have hcllen : (queryFieldValues d (allTickers d) Field.fClose).length ≠ 0 :=
    fun hz => hclose (List.eq_nil_of_length_eq_zero hz)
  refine ⟨⟨Json.objJ
    [("min", reducerObj d (allTickers d) (fun s => s.minV) priceFields),
     ("median", reducerObj d (allTickers d) (fun s => s.medianV) priceFields),
     ("mean", reducerObj d (allTickers d) (fun s => s.meanV) priceFields),
     ("max", reducerObj d (allTickers d) (fun s => s.maxV) priceFields)],
    rfl, ?_⟩, pricesResponse_oc_only hoc⟩
  intro k hk
  simp only [List.mem_cons, List.not_mem_nil, or_false] at hk
  rcases hk with rfl | rfl | rfl | rfl
  · obtain ⟨qo, hqo⟩ := listMin_isSome hopen
    obtain ⟨qc, hqc⟩ := listMin_isSome hclose
    obtain ⟨ha, hb⟩ :=
      reducerObj_price_lookup d (allTickers d) (fun s => s.minV) qo qc hqo hqc
    exact ⟨_, qo, qc, rfl, ha, hb⟩
  · obtain ⟨qo, hqo⟩ := medianSorted_isSome (s := sortVals
      (queryFieldValues d (allTickers d) Field.fOpen))
      (by rw [(sortVals_perm _).length_eq]; exact hoplen)
    obtain ⟨qc, hqc⟩ := medianSorted_isSome (s := sortVals
      (queryFieldValues d (allTickers d) Field.fClose))
      (by rw [(sortVals_perm _).length_eq]; exact hcllen)
    obtain ⟨ha, hb⟩ :=
      reducerObj_price_lookup d (allTickers d) (fun s => s.medianV) qo qc hqo hqc
    exact ⟨_, qo, qc, rfl, ha, hb⟩
  · obtain ⟨qo, hqo⟩ :=
      meanOf_isSome hoplen (queryFieldValues d (allTickers d) Field.fOpen).sum
    obtain ⟨qc, hqc⟩ :=
      meanOf_isSome hcllen (queryFieldValues d (allTickers d) Field.fClose).sum
    obtain ⟨ha, hb⟩ :=
      reducerObj_price_lookup d (allTickers d) (fun s => s.meanV) qo qc hqo hqc
    exact ⟨_, qo, qc, rfl, ha, hb⟩
  · obtain ⟨qo, hqo⟩ := listMax_isSome hopen
    obtain ⟨qc, hqc⟩ := listMax_isSome hclose
    obtain ⟨ha, hb⟩ :=
      reducerObj_price_lookup d (allTickers d) (fun s => s.maxV) qo qc hqo hqc
    exact ⟨_, qo, qc, rfl, ha, hb⟩

/-- Witness for C8: exampleD2 agrees with exampleD on open/close but
differs on every other metric, and both carry valid open/close samples. -/
theorem claim_C8_prices_shape_witness :
    (ocProjection exampleD = ocProjection exampleD2 ∧
      queryFieldValues exampleD (allTickers exampleD) Field.fOpen ≠ [] ∧
      queryFieldValues exampleD (allTickers exampleD) Field.fClose ≠ []) ∧
    ((∃ ps, (pricesResponse exampleD).lookupKey "price_statistics" = some ps ∧
      ∀ k ∈ ["min", "median", "mean", "max"],
        ∃ entry qo qc, ps.lookupKey k = some entry ∧
          entry.lookupKey "open" = some (Json.numJ qo) ∧
          entry.lookupKey "close" = some (Json.numJ qc)) ∧
    pricesResponse exampleD = pricesResponse exampleD2) :=
  ⟨⟨by decide, by decide, by decide⟩,
    claim_C8_prices_shape exampleD exampleD2 (by decide) (by decide) (by decide)⟩

end ProyectoStats
